import Mathlib

/-!
Verification development for the Telegram business-bot message shadow-store
(`bot.py`): message store, edit reconciler, deletion burst classifier,
ephemeral media recovery and chat archiver, embedded shallowly as pure
Lean functions over explicit state.  The messaging gateway (network sends,
file downloads) is modelled by explicit outcome oracles; every send or
download attempt is recorded as an `Effect`.
-/

/-- One row of the `messages` table (`bot.py` schema used by `save_message`):
key `(owner_id, chat_id, message_id)`, nullable sender, text, media kind,
file path, caption and denormalized links. -/
structure StoredMsg where
  owner_id : Int
  chat_id : Int
  message_id : Int
  user_id : Option Int
  text : String
  media_type : Option String
  file_path : Option String
  caption : Option String
  links : Option String
  deriving Repr, DecidableEq

/-- Key match on the unique composite key `(owner_id, chat_id, message_id)`. -/
def sameKey (owner chat mid : Int) (m : StoredMsg) : Bool :=
  m.owner_id == owner && m.chat_id == chat && m.message_id == mid

/-- Python `x or ""` on an optional string: `None` becomes `""`. -/
def pystr (o : Option String) : String := o.getD ""

/-- Python `a or b` on strings: the empty string is falsy. -/
def pyOrStr (a b : String) : String := if a == "" then b else a

/-- Field update applied by the `ON CONFLICT ... DO UPDATE` clause of
`save_message` (`bot.py` line 694): `text`, `media_type`, `file_path`,
`caption` and `links` are replaced; `user_id` is not in the SET list. -/
def updRow (text : Option String) (media_type file_path caption links : Option String)
    (m : StoredMsg) : StoredMsg :=
  { m with text := pystr text, media_type := media_type, file_path := file_path,
           caption := caption, links := links }

/-- `save_message` (`bot.py` lines 686-698): INSERT of the row, with
`ON CONFLICT (owner_id, chat_id, message_id) DO UPDATE` replacing the
content columns (the stored text is `text or ""`). -/
def save_message (db : List StoredMsg) (owner chat mid : Int) (uid : Option Int)
    (text : Option String) (media_type file_path caption links : Option String) :
    List StoredMsg :=
  match db.find? (sameKey owner chat mid) with
  | some _ =>
      db.map (fun m => if sameKey owner chat mid m
                       then updRow text media_type file_path caption links m
                       else m)
  | none =>
      db ++ [{ owner_id := owner, chat_id := chat, message_id := mid, user_id := uid,
               text := pystr text, media_type := media_type, file_path := file_path,
               caption := caption, links := links }]

/-- `get_message_full` (`bot.py` lines 701-709): SELECT by the composite key. -/
def get_message_full (db : List StoredMsg) (owner chat mid : Int) : Option StoredMsg :=
  db.find? (sameKey owner chat mid)

/-- `delete_message_from_db` (`bot.py` lines 712-717): DELETE by the composite key. -/
def delete_message_from_db (db : List StoredMsg) (owner chat mid : Int) : List StoredMsg :=
  db.filter (fun m => !(sameKey owner chat mid m))

/-- Fetch by `(chat_id, message_id)` only, as in the deletion handler's
per-id SELECT (`bot.py` line 3699), which does not constrain `owner_id`. -/
def findByChatMid (db : List StoredMsg) (chat mid : Int) : Option StoredMsg :=
  db.find? (fun m => m.chat_id == chat && m.message_id == mid)

/-- Self-destructing media download outcome: the aiogram `bot.download` call
either raises, or returns with the destination file absent, or succeeds. -/
inductive DlOutcome where
  | raised
  | fileMissing
  | ok
  deriving Repr, DecidableEq

/-- Observable gateway actions of the handlers, with the outcome of each
send/download attempt (`ok = true` means the call did not raise). -/
inductive Effect where
  | statMessages (owner : Int)
  | statEdits (owner : Int)
  | statDeletes (owner : Int)
  | editFullNotice (owner : Int) (old_shown new_shown : Option String) (ok : Bool)
  | editBriefNotice (owner chat mid : Int) (ok : Bool)
  | delBriefNotice (owner chat mid : Int) (ok : Bool)
  | delFullNotice (owner mid : Int) (ok : Bool)
  | delFallbackNotice (owner mid : Int) (ok : Bool)
  | delTextNotice (owner mid : Int) (ok : Bool)
  | archiveDoc (owner : Int) (artifact : String) (ok : Bool)
  | dlReplyPhoto (chat origid : Int) (outcome : DlOutcome)
  | fwdReplyPhoto (owner origid : Int) (ok : Bool)
  | dlReplyVideo (chat origid : Int) (outcome : DlOutcome)
  | fwdReplyVideo (owner origid : Int) (ok : Bool)
  | dlOwnMedia (chat mid : Int) (kind : String) (ok : Bool)
  deriving Repr, DecidableEq

/-- Whether an effect is a deletion notification about message id `mid`. -/
def Effect.isDeleteNoticeFor (mid : Int) : Effect → Bool
  | .delBriefNotice _ _ m _ => m == mid
  | .delFullNotice _ m _ => m == mid
  | .delFallbackNotice _ m _ => m == mid
  | .delTextNotice _ m _ => m == mid
  | _ => false

/-- Whether an effect is the download of the inbound message's own media. -/
def Effect.isOwnMediaDl : Effect → Bool
  | .dlOwnMedia _ _ _ _ => true
  | _ => false

/-- Whether an effect is the `total_messages` counter increment. -/
def Effect.isStatMessages : Effect → Bool
  | .statMessages _ => true
  | _ => false

/-- Whether an effect belongs to the reply-photo recovery path. -/
def Effect.isReplyPhotoAction : Effect → Bool
  | .dlReplyPhoto _ _ _ => true
  | .fwdReplyPhoto _ _ _ => true
  | _ => false

/-- An edit event as consumed by `handle_edited_business_message`. -/
structure EditEvent where
  chat_id : Int
  message_id : Int
  from_user : Option Int
  text : Option String
  caption : Option String
  deriving Repr, DecidableEq

/-- Old-text rendering decision of the edit notification (`bot.py` line 3557):
`to_fancy(old) if old else marker`; `some t` means the stored text `t` is
shown (display styling omitted), `none` means the explicit not-found marker. -/
def edit_old_shown (db : List StoredMsg) (owner chat mid : Int) : Option String :=
  match (get_message_full db owner chat mid).map (fun r => r.text) with
  | some t => if t == "" then none else some t
  | none => none

/-- `handle_edited_business_message` (`bot.py` lines 3522-3584), after owner
resolution and authentication: an edit by the owner returns immediately;
otherwise the prior row is fetched, the new text/caption upserted
(media columns passed as NULL), the edit counter bumped, and a full or
brief notification attempted depending on the subscription. -/
def handle_edited_business_message (db : List StoredMsg) (owner : Int) (ev : EditEvent)
    (subActive : Bool) (sendOk : Bool) : List StoredMsg × List Effect :=
  if ev.from_user == some owner then (db, [])
  else
    let new := pyOrStr (pystr ev.text) (pystr ev.caption)
    let old_shown := edit_old_shown db owner ev.chat_id ev.message_id
    let db2 := save_message db owner ev.chat_id ev.message_id ev.from_user
                 (some new) none none ev.caption none
    if subActive then
      let new_shown : Option String := if new == "" then none else some new
      (db2, [Effect.statEdits owner,
             Effect.editFullNotice owner old_shown new_shown sendOk])
    else
      (db2, [Effect.statEdits owner,
             Effect.editBriefNotice owner ev.chat_id ev.message_id sendOk])

example :
    handle_edited_business_message
      [⟨1, 5, 7, some 2, "hi", none, none, none, none⟩] 1
      ⟨5, 7, some 2, some "hello", none⟩ true true
    = ([⟨1, 5, 7, some 2, "hello", none, none, none, none⟩],
       [Effect.statEdits 1, Effect.editFullNotice 1 (some "hi") (some "hello") true]) := by
  decide

/-- Burst classification (`bot.py` lines 3655-3665): chat-clear when the batch
has at least 2 ids, or removes more than 20 percent of the chat's stored rows
(float percentage modelled as exact rationals), or the 10-second window holds
at least 3 deletions in total. -/
def classify (n total recent : Nat) : Bool :=
  let percentage : ℚ := if 0 < total then (n : ℚ) / (total : ℚ) * 100 else 0
  decide (2 ≤ n) || decide (20 < percentage) || decide (3 ≤ recent)

/-- Window pruning (`bot.py` line 3647): keep entries younger than 10 seconds. -/
def prune_window (now : ℚ) (w : List (ℚ × Nat)) : List (ℚ × Nat) :=
  w.filter (fun tc => decide (now - tc.1 < 10))

/-- Window update (`bot.py` lines 3647-3650): prune, then append `(now, n)`. -/
def update_window (now : ℚ) (n : Nat) (w : List (ℚ × Nat)) : List (ℚ × Nat) :=
  prune_window now w ++ [(now, n)]

/-- Sum of the deletion counts recorded in the window (`bot.py` line 3653). -/
def total_recent_deletions (w : List (ℚ × Nat)) : Nat :=
  (w.map Prod.snd).sum

/-- One window-update-and-classify step of the deletion handler
(`bot.py` lines 3638-3665): the updated window and the chat-clear verdict. -/
def deletion_step (w : List (ℚ × Nat)) (now : ℚ) (n total : Nat) :
    List (ℚ × Nat) × Bool :=
  let w1 := update_window now n w
  (w1, classify n total (total_recent_deletions w1))

/-- Rows of one `(owner, chat)` conversation, in observation order. -/
def list_for_chat (db : List StoredMsg) (owner chat : Int) : List StoredMsg :=
  db.filter (fun m => m.owner_id == owner && m.chat_id == chat)

/-- Media block of one archived message (`bot.py` lines 1321-1355): with the
file on disk a photo is embedded inline (base64 read failures degrade to a
label) and other kinds get a label; with the file missing, a label. -/
def media_div (fileExists : String → Bool) (embedOk : Bool) (m : StoredMsg) : String :=
  match m.media_type, m.file_path with
  | some mt, some p =>
      if mt == "" || p == "" then ""
      else if fileExists p then
        if (mt == "photo" || mt == "photo_reply") && embedOk
        then "<img src=base64-embedded-jpeg />"
        else "<div class=media>" ++ mt ++ "</div>"
      else "<div class=media>" ++ mt ++ "</div>"
  | _, _ => ""

/-- One message bubble of the archive (`bot.py` lines 1308-1369). -/
def msg_html (owner : Int) (chat_name : String) (fileExists : String → Bool)
    (embedOk : Bool) (m : StoredMsg) : String :=
  let sender := if m.user_id == some owner then "You" else chat_name
  let text := pyOrStr m.text (pystr m.caption)
  "<div class=bubble><b>" ++ sender ++ "</b>"
    ++ media_div fileExists embedOk m
    ++ "<p>" ++ text ++ "</p></div>"

/-- `create_chat_html_backup` (`bot.py` lines 1081-1396): read the chat's rows
(last `limit` in ascending order when a nonzero limit is given), return
not-available (`none`) when there are none, otherwise render the
self-contained HTML artifact; the final file write may fail (`writeOk`),
in which case the function also returns `none` (`bot.py` lines 1389-1396). -/
def create_chat_html_backup (db : List StoredMsg) (owner chat : Int) (chat_name : String)
    (limit : Option Nat) (fileExists : String → Bool) (embedOk writeOk : Bool) :
    Option String :=
  let all := list_for_chat db owner chat
  let messages := match limit with
    | some l => if l == 0 then all else (all.reverse.take l).reverse
    | none => all
  if messages.isEmpty then none
  else
    let html := "<!DOCTYPE html><html><head><title>Chat backup " ++ chat_name
        ++ "</title></head><body>"
        ++ String.join (messages.map (msg_html owner chat_name fileExists embedOk))
        ++ "<footer>Total messages: " ++ toString messages.length
        ++ "</footer></body></html>"
    if writeOk then some html else none

/-- Media kinds the deletion notifier can forward (`bot.py` lines 3767-3784). -/
def mediaSendable (mt : Option String) : Bool :=
  match mt with
  | some s => s == "photo" || s == "photo_reply" || s == "video" || s == "video_reply" ||
              s == "document" || s == "sticker" || s == "voice" || s == "video_note" ||
              s == "animation"
  | none => false

/-- Body of the per-id loop of `handle_deleted_business_messages`
(`bot.py` lines 3697-3799): fetch the row by `(chat, message_id)`; skip when
absent; delete silently when authored by the owner; otherwise bump the
deletion counter, attempt a brief (expired subscription) or full
notification — every send is wrapped in try/except in the source, so a
failed attempt is recorded and processing continues — and delete the row. -/
def process_deleted_id (db : List StoredMsg) (chat mid : Int)
    (subActive : Int → Bool) (sendOk fallbackOk : Int → Bool)
    (fileExists : String → Bool) : List StoredMsg × List Effect :=
  match findByChatMid db chat mid with
  | none => (db, [])
  | some row =>
    let owner := row.owner_id
    if row.user_id == some owner then
      (delete_message_from_db db owner chat mid, [])
    else if !(subActive owner) then
      (delete_message_from_db db owner chat mid,
       [Effect.statDeletes owner, Effect.delBriefNotice owner chat mid (sendOk mid)])
    else
      let capNonempty := row.text.trim != "" || (pystr row.caption).trim != ""
                           || pystr row.links != ""
      let mediaOnDisk := match row.file_path with
        | some p => p != "" && fileExists p
        | none => false
      let sends : List Effect :=
        if mediaOnDisk then
          if mediaSendable row.media_type then
            if sendOk mid then [Effect.delFullNotice owner mid true]
            else [Effect.delFullNotice owner mid false,
                  Effect.delFallbackNotice owner mid (fallbackOk mid)]
          else []
        else if capNonempty then [Effect.delTextNotice owner mid (sendOk mid)]
        else []
      (delete_message_from_db db owner chat mid, Effect.statDeletes owner :: sends)

/-- The per-id loop over the whole batch (`bot.py` line 3697). -/
def process_deleted_ids (db : List StoredMsg) (chat : Int) (ids : List Int)
    (subActive : Int → Bool) (sendOk fallbackOk : Int → Bool)
    (fileExists : String → Bool) : List StoredMsg × List Effect :=
  match ids with
  | [] => (db, [])
  | mid :: rest =>
    let step := process_deleted_id db chat mid subActive sendOk fallbackOk fileExists
    let restRes := process_deleted_ids step.1 chat rest subActive sendOk fallbackOk fileExists
    (restRes.1, step.2 ++ restRes.2)

/-- `handle_deleted_business_messages` (`bot.py` lines 3586-3799): resolve the
owner from any stored row of the batch (returning untouched when none is
found), count the chat's rows before any removal, update the sliding window
and classify the batch; on a chat-clear verdict build the HTML archive from
the still-intact store and attempt delivery; then run the per-id loop. -/
def handle_deleted_business_messages (db : List StoredMsg) (window : List (ℚ × Nat))
    (chat : Int) (ids : List Int) (now : ℚ) (chat_name : String)
    (subActive : Int → Bool) (sendOk fallbackOk : Int → Bool)
    (fileExists : String → Bool) (embedOk writeOk archiveSendOk : Bool) :
    List StoredMsg × List (ℚ × Nat) × List Effect :=
  match db.find? (fun m => m.chat_id == chat && ids.contains m.message_id) with
  | none => (db, window, [])
  | some first_row =>
    let owner := first_row.owner_id
    let total := (db.filter (fun m => m.chat_id == chat && m.owner_id == owner)).length
    let step := deletion_step window now ids.length total
    let archEffs : List Effect :=
      if step.2 then
        match create_chat_html_backup db owner chat chat_name none fileExists embedOk writeOk with
        | some art => [Effect.archiveDoc owner art archiveSendOk]
        | none => []
      else []
    let res := process_deleted_ids db chat ids subActive sendOk fallbackOk fileExists
    (res.1, step.1, archEffs ++ res.2)

/-- Computable characterization of `classify`: the exact-rational percentage
test `20 < n / total * 100` coincides with the integer test
`20 * total < 100 * n` when `total` is positive. -/
theorem classify_char (n total r : Nat) :
    classify n total r
      = (decide (2 ≤ n) || decide (0 < total ∧ 20 * total < 100 * n) || decide (3 ≤ r)) := by
  unfold classify
  show (decide (2 ≤ n)
        || decide (20 < (if 0 < total then (n : ℚ) / (total : ℚ) * 100 else 0))
        || decide (3 ≤ r)) = _
  congr 1
  congr 1
  rw [decide_eq_decide]
  by_cases h : 0 < total
  · simp only [if_pos h]
    rw [div_mul_eq_mul_div, lt_div_iff₀ (by exact_mod_cast h)]
    constructor
    · intro h2
      refine ⟨h, ?_⟩
      have h3 : ((20 * total : ℕ) : ℚ) < ((100 * n : ℕ) : ℚ) := by push_cast; linarith
      exact_mod_cast h3
    · intro h2
      have h3 : ((20 * total : ℕ) : ℚ) < ((100 * n : ℕ) : ℚ) := by exact_mod_cast h2.2
      push_cast at h3
      linarith
  · simp only [if_neg h]
    constructor
    · intro h2; norm_num at h2
    · intro h2; exact absurd h2.1 h

example : classify 1 100 1 = false := by rw [classify_char]; decide

example : classify 3 0 0 = true := by rw [classify_char]; decide

example : classify 1 4 1 = true := by rw [classify_char]; decide

/-- The replied-to message of an inbound business message: id, sender,
whether it carries a photo or a video, and its caption. -/
structure ReplyMsg where
  message_id : Int
  from_user : Option Int
  has_photo : Bool
  has_video : Bool
  caption : Option String
  deriving Repr, DecidableEq

/-- An inbound business message after owner resolution: chat, id, sender,
text, caption, its own media kind (the source probes photo, video, document,
sticker, voice, video_note, animation in order; a message carries at most
one), the URLs extracted from its entities, and the replied-to message. -/
structure BizMsg where
  chat_id : Int
  message_id : Int
  from_user : Option Int
  text : Option String
  caption : Option String
  media : Option String
  links : List String
  reply : Option ReplyMsg
  deriving Repr, DecidableEq

/-- Gateway outcomes for one inbound-message handling: the reply-photo and
reply-video download outcomes, whether the forwards to the owner raise, and
whether the message's own media download raises. -/
structure BizEnv where
  photoDl : DlOutcome
  photoSendOk : Bool
  videoDl : DlOutcome
  videoSendOk : Bool
  ownDlOk : Bool
  deriving Repr, DecidableEq

/-- Destination path of a recovered reply photo (`bot.py` line 3391). -/
def photo_reply_path (chat mid : Int) : String :=
  "saved_media/" ++ toString chat ++ "_" ++ toString mid ++ "_photo_reply.jpg"

/-- Destination path of a recovered reply video (`bot.py` line 3429). -/
def video_reply_path (chat mid : Int) : String :=
  "saved_media/" ++ toString chat ++ "_" ++ toString mid ++ "_video_reply.mp4"

/-- Locator of the message's own downloaded media (`bot.py` lines 3470-3503;
the per-kind file extension is collapsed into the kind suffix). -/
def own_media_path (chat mid : Int) (kind : String) : String :=
  "saved_media/" ++ toString chat ++ "_" ++ toString mid ++ "_" ++ kind

/-- Denormalized links column (`bot.py` line 3519):
`", ".join(links) if links else None`. -/
def linksOf (links : List String) : Option String :=
  if links.isEmpty then none else some (String.intercalate ", " links)

/-- Result of one view-once recovery step: updated store, recorded effects,
and whether the step aborted the whole handler (the source does a bare
`return` when the downloaded file is absent, `bot.py` lines 3396-3398). -/
structure StepRes where
  db : List StoredMsg
  effs : List Effect
  aborted : Bool
  deriving Repr, DecidableEq

/-- View-once photo recovery (`bot.py` lines 3383-3419): on a reply to a
photo whose sender is not the owner, download it; a raised download or
forward error is caught (no store write); a missing file aborts the handler;
on a successful forward the row is saved under the original message id with
media kind `photo_reply`. -/
def view_once_photo_step (db : List StoredMsg) (owner : Int) (msg : BizMsg)
    (env : BizEnv) : StepRes :=
  match msg.reply with
  | none => ⟨db, [], false⟩
  | some r =>
    if r.has_photo == false then ⟨db, [], false⟩
    else if r.from_user == some owner then ⟨db, [], false⟩
    else
      match env.photoDl with
      | .raised => ⟨db, [Effect.dlReplyPhoto msg.chat_id r.message_id DlOutcome.raised], false⟩
      | .fileMissing =>
          ⟨db, [Effect.dlReplyPhoto msg.chat_id r.message_id DlOutcome.fileMissing], true⟩
      | .ok =>
          if env.photoSendOk then
            ⟨save_message db owner msg.chat_id r.message_id r.from_user (some "")
               (some "photo_reply") (some (photo_reply_path msg.chat_id r.message_id))
               r.caption none,
             [Effect.dlReplyPhoto msg.chat_id r.message_id DlOutcome.ok,
              Effect.fwdReplyPhoto owner r.message_id true], false⟩
          else
            ⟨db, [Effect.dlReplyPhoto msg.chat_id r.message_id DlOutcome.ok,
                  Effect.fwdReplyPhoto owner r.message_id false], false⟩

/-- View-once video recovery (`bot.py` lines 3421-3457), mirror of the photo
step with media kind `video_reply`. -/
def view_once_video_step (db : List StoredMsg) (owner : Int) (msg : BizMsg)
    (env : BizEnv) : StepRes :=
  match msg.reply with
  | none => ⟨db, [], false⟩
  | some r =>
    if r.has_video == false then ⟨db, [], false⟩
    else if r.from_user == some owner then ⟨db, [], false⟩
    else
      match env.videoDl with
      | .raised => ⟨db, [Effect.dlReplyVideo msg.chat_id r.message_id DlOutcome.raised], false⟩
      | .fileMissing =>
          ⟨db, [Effect.dlReplyVideo msg.chat_id r.message_id DlOutcome.fileMissing], true⟩
      | .ok =>
          if env.videoSendOk then
            ⟨save_message db owner msg.chat_id r.message_id r.from_user (some "")
               (some "video_reply") (some (video_reply_path msg.chat_id r.message_id))
               r.caption none,
             [Effect.dlReplyVideo msg.chat_id r.message_id DlOutcome.ok,
              Effect.fwdReplyVideo owner r.message_id true], false⟩
          else
            ⟨db, [Effect.dlReplyVideo msg.chat_id r.message_id DlOutcome.ok,
                  Effect.fwdReplyVideo owner r.message_id false], false⟩

/-- `handle_business_message` (`bot.py` lines 3320-3520), after owner
resolution and authentication: run both view-once recovery steps first, then
check the subscription and return when it is inactive; otherwise download the
message's own media (a raised download is caught: kind and path stay
recorded), upsert the message into the store and bump the message counter. -/
def handle_business_message (db : List StoredMsg) (owner : Int) (msg : BizMsg)
    (subActive : Bool) (env : BizEnv) : List StoredMsg × List Effect :=
  let s1 := view_once_photo_step db owner msg env
  if s1.aborted then (s1.db, s1.effs)
  else
    let s2 := view_once_video_step s1.db owner msg env
    if s2.aborted then (s2.db, s1.effs ++ s2.effs)
    else if subActive == false then (s2.db, s1.effs ++ s2.effs)
    else
      let dlE : List Effect := match msg.media with
        | some k => [Effect.dlOwnMedia msg.chat_id msg.message_id k env.ownDlOk]
        | none => []
      let db3 := save_message s2.db owner msg.chat_id msg.message_id msg.from_user
                   (some (pystr msg.text)) msg.media
                   (msg.media.map (own_media_path msg.chat_id msg.message_id))
                   msg.caption (linksOf msg.links)
      (db3, s1.effs ++ s2.effs ++ dlE ++ [Effect.statMessages owner])

example :
    (handle_business_message [] 1
      ⟨5, 9, some 2, some "hello", none, none, [], some ⟨7, some 2, true, false, none⟩⟩
      true ⟨DlOutcome.ok, true, DlOutcome.ok, true, true⟩).2
    = [Effect.dlReplyPhoto 5 7 DlOutcome.ok, Effect.fwdReplyPhoto 1 7 true,
       Effect.statMessages 1] := by decide

/-- `sameKey` unfolded to propositional equality of the key fields. -/
theorem sameKey_iff (o c m : Int) (r : StoredMsg) :
    sameKey o c m r = true ↔ (r.owner_id = o ∧ r.chat_id = c ∧ r.message_id = m) := by
  simp [sameKey, and_assoc]

/-- `updRow` does not touch the key fields. -/
theorem sameKey_updRow (o c m : Int) (t mt fp cap lk : Option String) (r : StoredMsg) :
    sameKey o c m (updRow t mt fp cap lk r) = sameKey o c m r := rfl

/-- After a delete, the key no longer resolves. -/
theorem get_delete_self (db : List StoredMsg) (o c m : Int) :
    get_message_full (delete_message_from_db db o c m) o c m = none := by
  rw [get_message_full, List.find?_eq_none]
  intro x hx
  rw [delete_message_from_db, List.mem_filter] at hx
  simpa using hx.2

/-- A filter that can only drop elements failing the search predicate does not
change the result of `find?`. -/
theorem find?_filter_of_imp (l : List StoredMsg) (p q : StoredMsg → Bool)
    (h : ∀ r, q r = true → p r = true) :
    (l.filter p).find? q = l.find? q := by
  induction l with
  | nil => rfl
  | cons a t ih =>
    by_cases hq : q a = true
    · have hp := h a hq
      rw [List.filter_cons, if_pos hp, List.find?_cons_of_pos _ hq, List.find?_cons_of_pos _ hq]
    · by_cases hp : p a = true
      · rw [List.filter_cons, if_pos hp, List.find?_cons_of_neg _ hq,
            List.find?_cons_of_neg _ hq, ih]
      · rw [List.filter_cons, if_neg hp, List.find?_cons_of_neg _ hq, ih]

/-- A `find?` that fails on a list still fails on any filtering of it. -/
theorem find?_filter_none (l : List StoredMsg) (p q : StoredMsg → Bool)
    (h : l.find? q = none) : (l.filter p).find? q = none := by
  rw [List.find?_eq_none] at h ⊢
  intro x hx
  exact h x (List.mem_filter.mp hx).1

/-- The conflict-update map of `save_message` is invisible to searches for a
different key. -/
theorem find?_map_save (db : List StoredMsg) (o c m o2 c2 m2 : Int)
    (t mt fp cap lk : Option String) (h : ¬(o = o2 ∧ c = c2 ∧ m = m2)) :
    (db.map (fun r => if sameKey o c m r then updRow t mt fp cap lk r else r)).find?
        (sameKey o2 c2 m2)
      = db.find? (sameKey o2 c2 m2) := by
  induction db with
  | nil => rfl
  | cons a tl ih =>
    rw [List.map_cons]
    by_cases hk : sameKey o c m a = true
    · have h1 := (sameKey_iff o c m a).mp hk
      have h2 : ¬ sameKey o2 c2 m2 a = true := by
        intro hq
        have h3 := (sameKey_iff o2 c2 m2 a).mp hq
        exact h ⟨h1.1.symm.trans h3.1, h1.2.1.symm.trans h3.2.1, h1.2.2.symm.trans h3.2.2⟩
      rw [if_pos hk]
      rw [List.find?_cons_of_neg _ (by rw [sameKey_updRow]; exact h2)]
      rw [List.find?_cons_of_neg _ h2, ih]
    · rw [if_neg hk]
      by_cases hq : sameKey o2 c2 m2 a = true
      · rw [List.find?_cons_of_pos _ hq, List.find?_cons_of_pos _ hq]
      · rw [List.find?_cons_of_neg _ hq, List.find?_cons_of_neg _ hq, ih]

/-- `save_message` leaves every other key untouched. -/
theorem get_save_ne (db : List StoredMsg) (o c m o2 c2 m2 : Int) (uid : Option Int)
    (t mt fp cap lk : Option String) (h : ¬(o = o2 ∧ c = c2 ∧ m = m2)) :
    get_message_full (save_message db o c m uid t mt fp cap lk) o2 c2 m2
      = get_message_full db o2 c2 m2 := by
  unfold save_message get_message_full
  cases hf : db.find? (sameKey o c m) with
  | some r => exact find?_map_save db o c m o2 c2 m2 t mt fp cap lk h
  | none =>
    rw [List.find?_append]
    have hf2 : (List.find? (sameKey o2 c2 m2)
        [{ owner_id := o, chat_id := c, message_id := m, user_id := uid, text := pystr t,
           media_type := mt, file_path := fp, caption := cap, links := lk }]) = none := by
      rw [List.find?_eq_none]
      intro x hx
      rw [List.mem_singleton] at hx
      subst hx
      rw [sameKey_iff]
      intro h3
      exact h ⟨h3.1, h3.2.1, h3.2.2⟩
    rw [hf2, Option.or_none]

/-- On the updated key, `find?` over the conflict-update map returns the
updated first match. -/
theorem find?_map_save_key (db : List StoredMsg) (o c m : Int)
    (t mt fp cap lk : Option String) (r0 : StoredMsg)
    (h : db.find? (sameKey o c m) = some r0) :
    (db.map (fun r => if sameKey o c m r then updRow t mt fp cap lk r else r)).find?
        (sameKey o c m) = some (updRow t mt fp cap lk r0) := by
  induction db with
  | nil => simp at h
  | cons a tl ih =>
    by_cases hk : sameKey o c m a = true
    · rw [List.find?_cons_of_pos _ hk] at h
      injection h with h
      subst h
      rw [List.map_cons, if_pos hk]
      exact List.find?_cons_of_pos _ (by rw [sameKey_updRow]; exact hk)
    · rw [List.find?_cons_of_neg _ hk] at h
      rw [List.map_cons, if_neg hk, List.find?_cons_of_neg _ hk, ih h]

/-- After `save_message`, the saved key resolves to a row carrying exactly the
written content columns. -/
theorem get_save_key (db : List StoredMsg) (o c m : Int) (uid : Option Int)
    (t mt fp cap lk : Option String) :
    ∃ r, get_message_full (save_message db o c m uid t mt fp cap lk) o c m = some r
      ∧ r.owner_id = o ∧ r.chat_id = c ∧ r.message_id = m ∧ r.text = pystr t
      ∧ r.media_type = mt ∧ r.file_path = fp ∧ r.caption = cap ∧ r.links = lk := by
  unfold save_message get_message_full
  cases hf : db.find? (sameKey o c m) with
  | some r0 =>
    refine ⟨updRow t mt fp cap lk r0, find?_map_save_key db o c m t mt fp cap lk r0 hf, ?_⟩
    have h1 := (sameKey_iff o c m r0).mp (List.find?_some hf)
    exact ⟨h1.1, h1.2.1, h1.2.2, rfl, rfl, rfl, rfl, rfl⟩
  | none =>
    rw [List.find?_append, hf, Option.none_or]
    refine ⟨_, List.find?_cons_of_pos _ ?_, rfl, rfl, rfl, rfl, rfl, rfl, rfl, rfl⟩
    rw [sameKey_iff]
    exact ⟨rfl, rfl, rfl⟩

/-- Shape of one per-id deletion step: either the store is untouched (id not
stored) or it is exactly the keyed delete for the fetched row's owner. -/
theorem process_id_cases (db : List StoredMsg) (chat mid : Int)
    (subA : Int → Bool) (sOk fOk : Int → Bool) (fEx : String → Bool) :
    (process_deleted_id db chat mid subA sOk fOk fEx).1 = db ∨
    ∃ row, findByChatMid db chat mid = some row ∧
      (process_deleted_id db chat mid subA sOk fOk fEx).1
        = delete_message_from_db db row.owner_id chat mid := by
  rcases hf : findByChatMid db chat mid with _ | row
  · left
    simp [process_deleted_id, hf]
  · right
    refine ⟨row, rfl, ?_⟩
    simp only [process_deleted_id, hf]
    split_ifs <;> rfl

/-- One per-id step keeps an absent key absent. -/
theorem process_id_preserves_absence (db : List StoredMsg) (chat mid : Int)
    (subA : Int → Bool) (sOk fOk : Int → Bool) (fEx : String → Bool)
    (o c m : Int) (h : get_message_full db o c m = none) :
    get_message_full (process_deleted_id db chat mid subA sOk fOk fEx).1 o c m = none := by
  rcases process_id_cases db chat mid subA sOk fOk fEx with hc | ⟨row, _, hc⟩
  · rw [hc]; exact h
  · rw [hc, delete_message_from_db, get_message_full]
    exact find?_filter_none db _ _ h

/-- One per-id step for `mid` does not change what `findByChatMid` sees for a
different id in the same chat. -/
theorem process_id_preserves_other_find (db : List StoredMsg) (chat mid : Int)
    (subA : Int → Bool) (sOk fOk : Int → Bool) (fEx : String → Bool)
    (mid2 : Int) (h : ¬ mid2 = mid) :
    findByChatMid (process_deleted_id db chat mid subA sOk fOk fEx).1 chat mid2
      = findByChatMid db chat mid2 := by
  rcases process_id_cases db chat mid subA sOk fOk fEx with hc | ⟨row, _, hc⟩
  · rw [hc]
  · rw [hc, delete_message_from_db, findByChatMid, findByChatMid]
    apply find?_filter_of_imp
    intro r hq
    rw [Bool.and_eq_true, beq_iff_eq, beq_iff_eq] at hq
    rw [Bool.not_eq_true']
    cases hk : sameKey row.owner_id chat mid r with
    | false => rfl
    | true =>
        have h3 := (sameKey_iff _ _ _ r).mp hk
        exact absurd (hq.2.symm.trans h3.2.2) h

/-- Every deletion notification produced by the step for `mid` is about `mid`. -/
theorem process_id_effects_tag (db : List StoredMsg) (chat mid : Int)
    (subA : Int → Bool) (sOk fOk : Int → Bool) (fEx : String → Bool)
    (mid2 : Int) (h : ¬ mid2 = mid) :
    ∀ e ∈ (process_deleted_id db chat mid subA sOk fOk fEx).2,
      e.isDeleteNoticeFor mid2 = false := by
  have hne : (mid == mid2) = false := by
    rw [beq_eq_false_iff_ne]
    intro hc
    exact h hc.symm
  rcases hf : findByChatMid db chat mid with _ | row
  · intro e he
    simp [process_deleted_id, hf] at he
  · intro e he
    simp only [process_deleted_id, hf] at he
    split_ifs at he <;>
      simp only [List.mem_cons, List.not_mem_nil, or_false] at he <;>
      first
        | exact he.elim
        | (rcases he with rfl | rfl | rfl <;> simp [Effect.isDeleteNoticeFor, hne])

/-- The per-id loop keeps an absent key absent: no step ever inserts rows. -/
theorem process_ids_preserves_absence (chat : Int) (subA : Int → Bool)
    (sOk fOk : Int → Bool) (fEx : String → Bool) (o c m : Int) :
    ∀ (ids : List Int) (db : List StoredMsg), get_message_full db o c m = none →
      get_message_full (process_deleted_ids db chat ids subA sOk fOk fEx).1 o c m = none := by
  intro ids
  induction ids with
  | nil => intro db h; exact h
  | cons mid rest ih =>
    intro db h
    exact ih _ (process_id_preserves_absence db chat mid subA sOk fOk fEx o c m h)

/-- A batch that does not contain `mid2` produces no deletion notification
about `mid2`. -/
theorem process_ids_effects_tag (chat : Int) (subA : Int → Bool)
    (sOk fOk : Int → Bool) (fEx : String → Bool) (mid2 : Int) :
    ∀ (ids : List Int) (db : List StoredMsg), mid2 ∉ ids →
      ∀ e ∈ (process_deleted_ids db chat ids subA sOk fOk fEx).2,
        e.isDeleteNoticeFor mid2 = false := by
  intro ids
  induction ids with
  | nil => intro db _ e he; simp [process_deleted_ids] at he
  | cons mid rest ih =>
    intro db hnm e he
    simp only [process_deleted_ids, List.mem_append] at he
    rcases he with he | he
    · exact process_id_effects_tag db chat mid subA sOk fOk fEx mid2
        (fun hc => hnm (hc ▸ List.mem_cons_self mid rest)) e he
    · exact ih _ (fun hc => hnm (List.mem_cons_of_mem mid hc)) e he

/-- Core of claim C6 at the loop level: an id of the batch whose stored row is
authored by its owner ends up deleted, and no deletion notification about it
is ever emitted by the loop. -/
theorem process_ids_owner_silent (chat : Int) (subA : Int → Bool)
    (sOk fOk : Int → Bool) (fEx : String → Bool) (mid : Int) (row : StoredMsg) :
    ∀ (ids : List Int) (db : List StoredMsg), mid ∈ ids → ids.Nodup →
      findByChatMid db chat mid = some row →
      row.user_id = some row.owner_id →
      get_message_full (process_deleted_ids db chat ids subA sOk fOk fEx).1
          row.owner_id chat mid = none
        ∧ ∀ e ∈ (process_deleted_ids db chat ids subA sOk fOk fEx).2,
            e.isDeleteNoticeFor mid = false := by
  intro ids
  induction ids with
  | nil => intro db h; exact absurd h (List.not_mem_nil mid)
  | cons a rest ih =>
    intro db hmem hnd hf hu
    by_cases ha : a = mid
    · subst ha
      have hstep : process_deleted_id db chat a subA sOk fOk fEx
          = (delete_message_from_db db row.owner_id chat a, []) := by
        simp only [process_deleted_id, hf]
        rw [if_pos (beq_iff_eq.mpr hu)]
      have hnotin : a ∉ rest := (List.nodup_cons.mp hnd).1
      constructor
      · simp only [process_deleted_ids, hstep]
        exact process_ids_preserves_absence chat subA sOk fOk fEx row.owner_id chat a rest _
          (get_delete_self db row.owner_id chat a)
      · intro e he
        simp only [process_deleted_ids, hstep, List.nil_append] at he
        exact process_ids_effects_tag chat subA sOk fOk fEx a rest _ hnotin e he
    · have hmem2 : mid ∈ rest := by
        rcases List.mem_cons.mp hmem with hc | hc
        · exact absurd hc.symm ha
        · exact hc
      have hf2 : findByChatMid (process_deleted_id db chat a subA sOk fOk fEx).1 chat mid
          = some row := by
        rw [process_id_preserves_other_find db chat a subA sOk fOk fEx mid
          (fun hc => ha hc.symm)]
        exact hf
      have hnd2 := (List.nodup_cons.mp hnd).2
      rcases ih _ hmem2 hnd2 hf2 hu with ⟨ih1, ih2⟩
      refine ⟨?_, ?_⟩
      · simpa only [process_deleted_ids] using ih1
      · intro e he
        simp only [process_deleted_ids, List.mem_append] at he
        rcases he with he | he
        · exact process_id_effects_tag db chat a subA sOk fOk fEx mid
            (fun hc => ha hc.symm) e he
        · exact ih2 e he

/-- A reply without video leaves the video recovery step inert. -/
theorem video_step_skip (db : List StoredMsg) (owner : Int) (msg : BizMsg) (env : BizEnv)
    (r : ReplyMsg) (hr : msg.reply = some r) (hv : r.has_video = false) :
    view_once_video_step db owner msg env = ⟨db, [], false⟩ := by
  simp [view_once_video_step, hr, hv]

/-- A reply photo authored by the owner triggers no recovery. -/
theorem photo_step_skip_owner (db : List StoredMsg) (owner : Int) (msg : BizMsg)
    (env : BizEnv) (r : ReplyMsg) (hr : msg.reply = some r)
    (hu : r.from_user = some owner) :
    view_once_photo_step db owner msg env = ⟨db, [], false⟩ := by
  cases hp : r.has_photo <;> simp [view_once_photo_step, hr, hp, hu]

/-- Successful reply-photo recovery: download, forward, then store under the
original id with kind `photo_reply`. -/
theorem photo_step_success (db : List StoredMsg) (owner : Int) (msg : BizMsg)
    (env : BizEnv) (r : ReplyMsg) (hr : msg.reply = some r) (hp : r.has_photo = true)
    (hu : ¬ r.from_user = some owner) (hdl : env.photoDl = DlOutcome.ok)
    (hsend : env.photoSendOk = true) :
    view_once_photo_step db owner msg env
      = ⟨save_message db owner msg.chat_id r.message_id r.from_user (some "")
           (some "photo_reply") (some (photo_reply_path msg.chat_id r.message_id))
           r.caption none,
         [Effect.dlReplyPhoto msg.chat_id r.message_id DlOutcome.ok,
          Effect.fwdReplyPhoto owner r.message_id true], false⟩ := by
  have hu2 : (r.from_user == some owner) = false := beq_eq_false_iff_ne.mpr hu
  simp [view_once_photo_step, hr, hp, hu2, hdl, hsend]

/-- A raised reply-photo download is caught: no store write, no abort. -/
theorem photo_step_raised (db : List StoredMsg) (owner : Int) (msg : BizMsg)
    (env : BizEnv) (r : ReplyMsg) (hr : msg.reply = some r) (hp : r.has_photo = true)
    (hu : ¬ r.from_user = some owner) (hdl : env.photoDl = DlOutcome.raised) :
    view_once_photo_step db owner msg env
      = ⟨db, [Effect.dlReplyPhoto msg.chat_id r.message_id DlOutcome.raised], false⟩ := by
  have hu2 : (r.from_user == some owner) = false := beq_eq_false_iff_ne.mpr hu
  simp [view_once_photo_step, hr, hp, hu2, hdl]

/-- Photo-recovery effects are neither own-media downloads nor counter bumps. -/
theorem photo_step_effects (db : List StoredMsg) (owner : Int) (msg : BizMsg)
    (env : BizEnv) :
    ∀ e ∈ (view_once_photo_step db owner msg env).effs,
      e.isOwnMediaDl = false ∧ e.isStatMessages = false := by
  intro e he
  rcases hr : msg.reply with _ | r
  · simp [view_once_photo_step, hr] at he
  · rcases hdl : env.photoDl <;>
      cases hp : r.has_photo <;>
      cases hb : (r.from_user == some owner) <;>
      cases hs : env.photoSendOk <;>
      simp [view_once_photo_step, hr, hp, hb, hdl, hs] at he <;>
      rcases he with rfl | rfl <;> exact ⟨rfl, rfl⟩

/-- Video-recovery effects are neither own-media downloads nor counter bumps. -/
theorem video_step_effects (db : List StoredMsg) (owner : Int) (msg : BizMsg)
    (env : BizEnv) :
    ∀ e ∈ (view_once_video_step db owner msg env).effs,
      e.isOwnMediaDl = false ∧ e.isStatMessages = false := by
  intro e he
  rcases hr : msg.reply with _ | r
  · simp [view_once_video_step, hr] at he
  · rcases hdl : env.videoDl <;>
      cases hp : r.has_video <;>
      cases hb : (r.from_user == some owner) <;>
      cases hs : env.videoSendOk <;>
      simp [view_once_video_step, hr, hp, hb, hdl, hs] at he <;>
      rcases he with rfl | rfl <;> exact ⟨rfl, rfl⟩

/-- The photo recovery step can only write under the reply's message id. -/
theorem photo_step_db_get (db : List StoredMsg) (owner : Int) (msg : BizMsg)
    (env : BizEnv) (o c m : Int)
    (hm : ∀ r : ReplyMsg, msg.reply = some r → ¬(owner = o ∧ msg.chat_id = c ∧ r.message_id = m)) :
    get_message_full (view_once_photo_step db owner msg env).db o c m
      = get_message_full db o c m := by
  rcases hr : msg.reply with _ | r
  · simp [view_once_photo_step, hr]
  · have hne := hm r hr
    rcases hdl : env.photoDl <;>
      cases hp : r.has_photo <;>
      cases hb : (r.from_user == some owner) <;>
      cases hs : env.photoSendOk <;>
      simp only [view_once_photo_step, hr, hp, hb, hdl, hs, Bool.false_eq_true, if_false,
        if_true, Bool.true_eq_false] <;>
      first
        | rfl
        | exact get_save_ne db owner msg.chat_id r.message_id o c m r.from_user (some "")
            (some "photo_reply") (some (photo_reply_path msg.chat_id r.message_id))
            r.caption none hne

/-- The video recovery step can only write under the reply's message id. -/
theorem video_step_db_get (db : List StoredMsg) (owner : Int) (msg : BizMsg)
    (env : BizEnv) (o c m : Int)
    (hm : ∀ r : ReplyMsg, msg.reply = some r → ¬(owner = o ∧ msg.chat_id = c ∧ r.message_id = m)) :
    get_message_full (view_once_video_step db owner msg env).db o c m
      = get_message_full db o c m := by
  rcases hr : msg.reply with _ | r
  · simp [view_once_video_step, hr]
  · have hne := hm r hr
    rcases hdl : env.videoDl <;>
      cases hp : r.has_video <;>
      cases hb : (r.from_user == some owner) <;>
      cases hs : env.videoSendOk <;>
      simp only [view_once_video_step, hr, hp, hb, hdl, hs, Bool.false_eq_true, if_false,
        if_true, Bool.true_eq_false] <;>
      first
        | rfl
        | exact get_save_ne db owner msg.chat_id r.message_id o c m r.from_user (some "")
            (some "video_reply") (some (video_reply_path msg.chat_id r.message_id))
            r.caption none hne

/-- Successful reply-photo recovery seen through the whole inbound handler:
the download and forward effects are emitted and the `photo_reply` row is in
the final store (whatever the subscription state). -/
theorem photo_success_handler (db : List StoredMsg) (owner : Int) (msg : BizMsg)
    (subActive : Bool) (env : BizEnv) (r : ReplyMsg)
    (hr : msg.reply = some r) (hp : r.has_photo = true) (hv : r.has_video = false)
    (hu : ¬ r.from_user = some owner) (hdl : env.photoDl = DlOutcome.ok)
    (hsend : env.photoSendOk = true) :
    Effect.dlReplyPhoto msg.chat_id r.message_id DlOutcome.ok
        ∈ (handle_business_message db owner msg subActive env).2
    ∧ Effect.fwdReplyPhoto owner r.message_id true
        ∈ (handle_business_message db owner msg subActive env).2
    ∧ (¬ r.message_id = msg.message_id →
        ∃ s, get_message_full (handle_business_message db owner msg subActive env).1
               owner msg.chat_id r.message_id = some s
          ∧ s.media_type = some "photo_reply"
          ∧ s.file_path = some (photo_reply_path msg.chat_id r.message_id)) := by
  have h1 := photo_step_success db owner msg env r hr hp hu hdl hsend
  have h2 := video_step_skip (save_message db owner msg.chat_id r.message_id r.from_user
      (some "") (some "photo_reply") (some (photo_reply_path msg.chat_id r.message_id))
      r.caption none) owner msg env r hr hv
  obtain ⟨s, hs, hso, hsc, hsm, hst, hmt, hfp, hcap, hlk⟩ :=
    get_save_key db owner msg.chat_id r.message_id r.from_user (some "")
      (some "photo_reply") (some (photo_reply_path msg.chat_id r.message_id)) r.caption none
  unfold handle_business_message
  rw [h1]
  simp only [h2]
  cases subActive with
  | false =>
    refine ⟨by simp, by simp, ?_⟩
    intro _
    exact ⟨s, hs, hmt, hfp⟩
  | true =>
    refine ⟨by simp, by simp, ?_⟩
    intro hne
    have hne2 : ¬(owner = owner ∧ msg.chat_id = msg.chat_id
        ∧ msg.message_id = r.message_id) := by
      intro hc
      exact hne hc.2.2.symm
    refine ⟨s, ?_, hmt, hfp⟩
    show get_message_full (save_message (save_message db owner msg.chat_id r.message_id
        r.from_user (some "") (some "photo_reply")
        (some (photo_reply_path msg.chat_id r.message_id)) r.caption none)
        owner msg.chat_id msg.message_id msg.from_user (some (pystr msg.text)) msg.media
        (Option.map (own_media_path msg.chat_id msg.message_id) msg.media) msg.caption
        (linksOf msg.links)) owner msg.chat_id r.message_id = some s
    rw [get_save_ne _ owner msg.chat_id msg.message_id owner msg.chat_id r.message_id
      msg.from_user (some (pystr msg.text)) msg.media
      (Option.map (own_media_path msg.chat_id msg.message_id) msg.media) msg.caption
      (linksOf msg.links) hne2]
    exact hs

/-- The selected archive rows are empty exactly when the chat has none. -/
theorem backup_selection_empty (all : List StoredMsg) (limit : Option Nat) :
    ((match limit with
      | some l => if l == 0 then all else (all.reverse.take l).reverse
      | none => all).isEmpty = true) ↔ all = [] := by
  cases limit with
  | none => exact List.isEmpty_iff
  | some l =>
    show (if (l == 0) = true then all else (List.take l all.reverse).reverse).isEmpty
        = true ↔ all = []
    by_cases hl : (l == 0) = true
    · rw [if_pos hl]; exact List.isEmpty_iff
    · rw [if_neg hl, List.isEmpty_iff, List.reverse_eq_nil_iff, List.take_eq_nil_iff,
        List.reverse_eq_nil_iff]
      constructor
      · intro hc
        rcases hc with hc | hc
        · exact absurd (beq_iff_eq.mpr hc) hl
        · exact hc
      · intro hc
        right
        exact hc

/-- `create_chat_html_backup` returns not-available exactly when the chat has
no stored rows or the final file write fails. -/
theorem create_backup_none_iff (db : List StoredMsg) (owner chat : Int) (name : String)
    (limit : Option Nat) (fEx : String → Bool) (embedOk writeOk : Bool) :
    create_chat_html_backup db owner chat name limit fEx embedOk writeOk = none
      ↔ (list_for_chat db owner chat = [] ∨ writeOk = false) := by
  simp only [create_chat_html_backup]
  split_ifs with hE hW
  · constructor
    · intro _
      exact Or.inl ((backup_selection_empty _ _).mp hE)
    · intro _
      rfl
  · constructor
    · intro hc
      exact hc.elim
    · intro hc
      rcases hc with hc | hc
      · exact absurd ((backup_selection_empty (list_for_chat db owner chat) limit).mpr hc) hE
      · rw [hc] at hW
        exact Bool.noConfusion hW
  · constructor
    · intro _
      right
      cases hb : writeOk with
      | false => rfl
      | true => exact absurd hb hW
    · intro _
      rfl

/-- A produced archive artifact is never the empty string. -/
theorem create_backup_artifact_ne (db : List StoredMsg) (owner chat : Int) (name : String)
    (limit : Option Nat) (fEx : String → Bool) (embedOk writeOk : Bool) :
    ∀ art, create_chat_html_backup db owner chat name limit fEx embedOk writeOk = some art
      → ¬ art = "" := by
  intro art h hempty
  subst hempty
  simp only [create_chat_html_backup] at h
  split_ifs at h with hE hW
  all_goals
    first
      | exact Option.noConfusion h
      | exact h.elim
      | (injection h with h
         have hlen := congrArg String.length h
         rw [String.length_append, String.length_append, String.length_append,
             String.length_append, String.length_append, String.length_append] at hlen
         have h0 : ("" : String).length = 0 := rfl
         rw [h0] at hlen
         have h46 : 0 < ("<!DOCTYPE html><html><head><title>Chat backup " : String).length := by
           decide
         omega)

/-- Claim C1, as stated, is false on the code: with one stored non-owner
message and a delivery oracle that raises, the handler still removes the row
from the store (the send is wrapped in try/except and the delete is
unconditional, `bot.py` lines 3735-3743). -/
theorem C1_counterexample :
    (process_deleted_id [⟨1, 5, 7, some 2, "hi", none, none, none, none⟩] 5 7
        (fun _ => false) (fun _ => false) (fun _ => false) (fun _ => false)).1 = []
    ∧ Effect.delBriefNotice 1 5 7 false
        ∈ (process_deleted_id [⟨1, 5, 7, some 2, "hi", none, none, none, none⟩] 5 7
            (fun _ => false) (fun _ => false) (fun _ => false) (fun _ => false)).2 := by
  decide

/-- Claim C1 amended: for every message in a deletion batch whose sender is
not the owner, the handler attempts delivery (with any failure caught and
logged) and then deletes the row from the store regardless of the delivery
outcome; deletion is not conditional on a successful send. -/
theorem C1_amended_delete_regardless (db : List StoredMsg) (chat mid : Int)
    (subA : Int → Bool) (sOk fOk : Int → Bool) (fEx : String → Bool) (row : StoredMsg)
    (hf : findByChatMid db chat mid = some row)
    (hu : ¬ row.user_id = some row.owner_id) :
    (process_deleted_id db chat mid subA sOk fOk fEx).1
      = delete_message_from_db db row.owner_id chat mid
    ∧ (subA row.owner_id = false →
        Effect.delBriefNotice row.owner_id chat mid (sOk mid)
          ∈ (process_deleted_id db chat mid subA sOk fOk fEx).2) := by
  have hu2 : (row.user_id == some row.owner_id) = false := beq_eq_false_iff_ne.mpr hu
  constructor
  · simp only [process_deleted_id, hf, hu2]
    split_ifs <;> rfl
  · intro hs
    simp [process_deleted_id, hf, hu2, hs]

/-- Witness for the amended C1 at a concrete store and batch element. -/
theorem C1_amended_witness :
    (process_deleted_id [⟨1, 5, 7, some 2, "hi", none, none, none, none⟩] 5 7
        (fun _ => true) (fun _ => true) (fun _ => true) (fun _ => false)).1
      = delete_message_from_db [⟨1, 5, 7, some 2, "hi", none, none, none, none⟩] 1 5 7
    ∧ ((fun _ => true : Int → Bool) 1 = false →
        Effect.delBriefNotice 1 5 7 ((fun _ => true : Int → Bool) 7)
          ∈ (process_deleted_id [⟨1, 5, 7, some 2, "hi", none, none, none, none⟩] 5 7
              (fun _ => true) (fun _ => true) (fun _ => true) (fun _ => false)).2) :=
  C1_amended_delete_regardless [⟨1, 5, 7, some 2, "hi", none, none, none, none⟩] 5 7
    (fun _ => true) (fun _ => true) (fun _ => true) (fun _ => false)
    ⟨1, 5, 7, some 2, "hi", none, none, none, none⟩ (by decide) (by decide)

/-- Claim C2: a deletion batch is classified as a chat clear exactly when it
has at least two ids, or removes more than 20 percent of the stored rows, or
the 10-second window totals at least 3 deletions; in particular one id out of
100 stored rows with an otherwise empty window is not a clear, and any batch
of three ids is a clear. -/
theorem C2_classification :
    (∀ n total recent, classify n total recent = true ↔
       (2 ≤ n ∨ (0 < total ∧ (0.20 : ℚ) < (n : ℚ) / (total : ℚ)) ∨ 3 ≤ recent))
    ∧ classify 1 100 1 = false
    ∧ (∀ total recent, classify 3 total recent = true) := by
  refine ⟨?_, ?_, ?_⟩
  · intro n total recent
    rw [classify_char]
    simp only [Bool.or_eq_true, decide_eq_true_eq]
    constructor
    · intro hc
      rcases hc with (hc | hc) | hc
      · exact Or.inl hc
      · refine Or.inr (Or.inl ⟨hc.1, ?_⟩)
        rw [lt_div_iff₀ (by exact_mod_cast hc.1)]
        have h3 : ((20 * total : ℕ) : ℚ) < ((100 * n : ℕ) : ℚ) := by exact_mod_cast hc.2
        push_cast at h3
        norm_num
        linarith
      · exact Or.inr (Or.inr hc)
    · intro hc
      rcases hc with hc | hc | hc
      · exact Or.inl (Or.inl hc)
      · refine Or.inl (Or.inr ⟨hc.1, ?_⟩)
        have h2 := hc.2
        rw [lt_div_iff₀ (by exact_mod_cast hc.1)] at h2
        have h3 : ((20 * total : ℕ) : ℚ) < ((100 * n : ℕ) : ℚ) := by push_cast; linarith
        exact_mod_cast h3
      · exact Or.inr hc
  · rw [classify_char]
    decide
  · intro total recent
    rw [classify_char]
    simp

/-- Claim C3: the deletion window is maintained by pruning entries that are
at least 10 seconds old and appending the current batch; consequently three
single-message batches within 10 seconds in the same chat make the third
batch classify as a chat clear through `recent_total = 3`, whatever the
chat's stored totals are. -/
theorem C3_window_burst (t0 t1 t2 : ℚ) (total0 total1 total2 : Nat)
    (h01 : t0 ≤ t1) (h12 : t1 ≤ t2) (h02 : t2 - t0 < 10) :
    (∀ (w : List (ℚ × Nat)) (now : ℚ) (n total : Nat),
        (deletion_step w now n total).1 = prune_window now w ++ [(now, n)])
    ∧ (deletion_step ((deletion_step ((deletion_step [] t0 1 total0).1) t1 1 total1).1)
         t2 1 total2).2 = true := by
  refine ⟨fun w now n total => rfl, ?_⟩
  have c1 : decide (t1 - t0 < 10) = true := decide_eq_true (by linarith)
  have c2 : decide (t2 - t0 < 10) = true := decide_eq_true (by linarith)
  have c3 : decide (t2 - t1 < 10) = true := decide_eq_true (by linarith)
  have e1 : (deletion_step [] t0 1 total0).1 = [(t0, 1)] := rfl
  rw [e1]
  have e2 : (deletion_step [(t0, 1)] t1 1 total1).1 = [(t0, 1), (t1, 1)] := by
    show update_window t1 1 [(t0, 1)] = [(t0, 1), (t1, 1)]
    simp [update_window, prune_window, List.filter_cons, c1]
  rw [e2]
  show classify 1 total2 (total_recent_deletions (update_window t2 1 [(t0, 1), (t1, 1)])) = true
  have e3 : update_window t2 1 [(t0, 1), (t1, 1)] = [(t0, 1), (t1, 1), (t2, 1)] := by
    simp [update_window, prune_window, List.filter_cons, c2, c3]
  rw [e3]
  rw [show total_recent_deletions [(t0, 1), (t1, 1), (t2, 1)] = 3 from rfl]
  rw [classify_char]
  simp

/-- Witness for C3 at concrete timestamps 0, 4, 9 with stored totals 100. -/
theorem C3_window_burst_witness :
    (∀ (w : List (ℚ × Nat)) (now : ℚ) (n total : Nat),
        (deletion_step w now n total).1 = prune_window now w ++ [(now, n)])
    ∧ (deletion_step ((deletion_step ((deletion_step [] (0 : ℚ) 1 100).1) 4 1 100).1)
         9 1 100).2 = true :=
  C3_window_burst 0 4 9 100 100 100 (by norm_num) (by norm_num) (by norm_num)

/-- Claim C4, as stated, is false on the code: an edit whose sender is the
owner returns before `save_message` (`bot.py` lines 3535-3536), so the store
still holds the old text and no effect is produced — the store update does
not happen. -/
theorem C4_counterexample :
    handle_edited_business_message [⟨1, 5, 7, some 1, "old", none, none, none, none⟩] 1
        ⟨5, 7, some 1, some "new", none⟩ true true
      = ([⟨1, 5, 7, some 1, "old", none, none, none, none⟩], [])
    ∧ get_message_full
        (handle_edited_business_message [⟨1, 5, 7, some 1, "old", none, none, none, none⟩] 1
          ⟨5, 7, some 1, some "new", none⟩ true true).1 1 5 7
      = some ⟨1, 5, 7, some 1, "old", none, none, none, none⟩ := by
  decide

/-- Claim C4 amended: for every edit event whose sender is not the owner, the
new text/caption is upserted into the store as a full replace of the content
columns (text set to the edit's text-or-caption, caption to the edit's
caption, media kind, path and links cleared); when the edit's sender equals
the owner, the handler returns early and neither the store update nor the
notification happens. -/
theorem C4_amended_full_replace (db : List StoredMsg) (owner : Int) (ev : EditEvent)
    (subActive sendOk : Bool) (h : ¬ ev.from_user = some owner) :
    (handle_edited_business_message db owner ev subActive sendOk).1
      = save_message db owner ev.chat_id ev.message_id ev.from_user
          (some (pyOrStr (pystr ev.text) (pystr ev.caption))) none none ev.caption none
    ∧ ∃ r, get_message_full (handle_edited_business_message db owner ev subActive sendOk).1
             owner ev.chat_id ev.message_id = some r
        ∧ r.text = pyOrStr (pystr ev.text) (pystr ev.caption)
        ∧ r.media_type = none ∧ r.file_path = none
        ∧ r.caption = ev.caption ∧ r.links = none := by
  have h2 : (ev.from_user == some owner) = false := beq_eq_false_iff_ne.mpr h
  have hdb : (handle_edited_business_message db owner ev subActive sendOk).1
      = save_message db owner ev.chat_id ev.message_id ev.from_user
          (some (pyOrStr (pystr ev.text) (pystr ev.caption))) none none ev.caption none := by
    simp only [handle_edited_business_message, h2, Bool.false_eq_true, if_false]
    split_ifs <;> rfl
  refine ⟨hdb, ?_⟩
  rw [hdb]
  obtain ⟨r, hr, _, _, _, ht, hmt, hfp, hcap, hlk⟩ :=
    get_save_key db owner ev.chat_id ev.message_id ev.from_user
      (some (pyOrStr (pystr ev.text) (pystr ev.caption))) none none ev.caption none
  exact ⟨r, hr, ht, hmt, hfp, hcap, hlk⟩

/-- Witness for the amended C4: a non-owner edit on a one-row store. -/
theorem C4_amended_witness :
    (handle_edited_business_message [⟨1, 5, 7, some 2, "old", none, none, none, none⟩] 1
        ⟨5, 7, some 2, some "new", none⟩ true true).1
      = save_message [⟨1, 5, 7, some 2, "old", none, none, none, none⟩] 1 5 7 (some 2)
          (some (pyOrStr (pystr (some "new")) (pystr none))) none none none none
    ∧ ∃ r, get_message_full
             (handle_edited_business_message [⟨1, 5, 7, some 2, "old", none, none, none, none⟩]
               1 ⟨5, 7, some 2, some "new", none⟩ true true).1 1 5 7 = some r
        ∧ r.text = pyOrStr (pystr (some "new")) (pystr none)
        ∧ r.media_type = none ∧ r.file_path = none
        ∧ r.caption = none ∧ r.links = none :=
  C4_amended_full_replace [⟨1, 5, 7, some 2, "old", none, none, none, none⟩] 1
    ⟨5, 7, some 2, some "new", none⟩ true true (by decide)

/-- Claim C5, as stated, is false on the code: a stored row whose text is
empty (for example a bare media message) exists in the store, yet the full
edit notification shows the explicit not-found marker, because the source
tests Python truthiness of the old text (`bot.py` line 3557), not row
presence. -/
theorem C5_counterexample :
    get_message_full [⟨1, 5, 7, some 2, "", some "photo", none, none, none⟩] 1 5 7
      = some ⟨1, 5, 7, some 2, "", some "photo", none, none, none⟩
    ∧ (handle_edited_business_message [⟨1, 5, 7, some 2, "", some "photo", none, none, none⟩]
          1 ⟨5, 7, some 2, some "x", none⟩ true true).2
      = [Effect.statEdits 1, Effect.editFullNotice 1 none (some "x") true] := by
  decide

/-- Claim C5 amended: for every edit whose sender is not the owner, under an
active subscription the full notification carries `edit_old_shown`; that
marker slot is the explicit not-found marker (`none`) exactly when the row
was absent or its stored text was empty, and a present row with nonempty
stored text is shown verbatim — the old text is never guessed. -/
theorem C5_amended_marker (db : List StoredMsg) (owner : Int) (ev : EditEvent)
    (sendOk : Bool) (h : ¬ ev.from_user = some owner) :
    (handle_edited_business_message db owner ev true sendOk).2
      = [Effect.statEdits owner,
         Effect.editFullNotice owner (edit_old_shown db owner ev.chat_id ev.message_id)
           (if pyOrStr (pystr ev.text) (pystr ev.caption) == "" then none
            else some (pyOrStr (pystr ev.text) (pystr ev.caption))) sendOk]
    ∧ (edit_old_shown db owner ev.chat_id ev.message_id = none ↔
        (get_message_full db owner ev.chat_id ev.message_id = none
          ∨ ∃ r, get_message_full db owner ev.chat_id ev.message_id = some r ∧ r.text = ""))
    ∧ (∀ r, get_message_full db owner ev.chat_id ev.message_id = some r → ¬ r.text = "" →
        edit_old_shown db owner ev.chat_id ev.message_id = some r.text) := by
  have h2 : (ev.from_user == some owner) = false := beq_eq_false_iff_ne.mpr h
  refine ⟨?_, ?_, ?_⟩
  · simp only [handle_edited_business_message, h2, Bool.false_eq_true, if_false, if_true]
  · unfold edit_old_shown
    cases hg : get_message_full db owner ev.chat_id ev.message_id with
    | none =>
      simp
    | some r =>
      show (if (r.text == "") = true then none else some r.text) = none ↔ _
      by_cases ht : (r.text == "") = true
      · rw [if_pos ht]
        simp only [true_iff]
        exact Or.inr ⟨r, rfl, beq_iff_eq.mp ht⟩
      · rw [if_neg ht]
        constructor
        · intro hc
          exact Option.noConfusion hc
        · intro hc
          rcases hc with hc | ⟨r2, hr2, hr2t⟩
          · exact Option.noConfusion hc
          · injection hr2 with hr2
            subst hr2
            exact absurd (beq_iff_eq.mpr hr2t) ht
  · intro r hr ht
    unfold edit_old_shown
    rw [hr]
    show (if (r.text == "") = true then none else some r.text) = some r.text
    rw [if_neg (fun hc => ht (beq_iff_eq.mp hc))]

/-- Witness for the amended C5: non-owner edit over a store holding text
`hi` under the edited key. -/
theorem C5_amended_witness :
    (handle_edited_business_message [⟨1, 5, 7, some 2, "hi", none, none, none, none⟩] 1
        ⟨5, 7, some 2, some "new", none⟩ true true).2
      = [Effect.statEdits 1,
         Effect.editFullNotice 1
           (edit_old_shown [⟨1, 5, 7, some 2, "hi", none, none, none, none⟩] 1 5 7)
           (if pyOrStr (pystr (some "new")) (pystr none) == "" then none
            else some (pyOrStr (pystr (some "new")) (pystr none))) true]
    ∧ (edit_old_shown [⟨1, 5, 7, some 2, "hi", none, none, none, none⟩] 1 5 7 = none ↔
        (get_message_full [⟨1, 5, 7, some 2, "hi", none, none, none, none⟩] 1 5 7 = none
          ∨ ∃ r, get_message_full [⟨1, 5, 7, some 2, "hi", none, none, none, none⟩] 1 5 7
                   = some r ∧ r.text = ""))
    ∧ (∀ r, get_message_full [⟨1, 5, 7, some 2, "hi", none, none, none, none⟩] 1 5 7
          = some r → ¬ r.text = "" →
        edit_old_shown [⟨1, 5, 7, some 2, "hi", none, none, none, none⟩] 1 5 7
          = some r.text) :=
  C5_amended_marker [⟨1, 5, 7, some 2, "hi", none, none, none, none⟩] 1
    ⟨5, 7, some 2, some "new", none⟩ true (by decide)

/-- Projection of the deletion handler once an owner row was resolved: the
final store is the per-id loop's store, and the effect log is the archive
effects (never deletion notifications) followed by the loop's effects. -/
theorem handler_del_proj (db : List StoredMsg) (window : List (ℚ × Nat))
    (chat : Int) (ids : List Int) (now : ℚ) (name : String)
    (subA : Int → Bool) (sOk fOk : Int → Bool) (fEx : String → Bool)
    (embedOk writeOk archOk : Bool) (fr : StoredMsg)
    (htop : db.find? (fun m => m.chat_id == chat && ids.contains m.message_id) = some fr) :
    (handle_deleted_business_messages db window chat ids now name
        subA sOk fOk fEx embedOk writeOk archOk).1
      = (process_deleted_ids db chat ids subA sOk fOk fEx).1
    ∧ ∃ archEffs : List Effect,
        (handle_deleted_business_messages db window chat ids now name
            subA sOk fOk fEx embedOk writeOk archOk).2.2
          = archEffs ++ (process_deleted_ids db chat ids subA sOk fOk fEx).2
        ∧ ∀ e ∈ archEffs, ∀ m2 : Int, e.isDeleteNoticeFor m2 = false := by
  have hred : handle_deleted_business_messages db window chat ids now name
      subA sOk fOk fEx embedOk writeOk archOk
      = ((process_deleted_ids db chat ids subA sOk fOk fEx).1,
         (deletion_step window now ids.length
           ((db.filter (fun m => m.chat_id == chat && m.owner_id == fr.owner_id)).length)).1,
         (if (deletion_step window now ids.length
              ((db.filter (fun m => m.chat_id == chat
                  && m.owner_id == fr.owner_id)).length)).2 = true then
            (match create_chat_html_backup db fr.owner_id chat name none fEx embedOk writeOk with
             | some art => [Effect.archiveDoc fr.owner_id art archOk]
             | none => [])
          else [])
          ++ (process_deleted_ids db chat ids subA sOk fOk fEx).2) := by
    simp only [handle_deleted_business_messages, htop]
  rw [hred]
  refine ⟨rfl, ?_⟩
  refine ⟨_, rfl, ?_⟩
  intro e he m2
  split_ifs at he
  · rcases hb : create_chat_html_backup db fr.owner_id chat name none fEx embedOk writeOk
      with _ | art
    · rw [hb] at he
      exact absurd he (List.not_mem_nil e)
    · rw [hb] at he
      rw [List.mem_singleton] at he
      subst he
      rfl
  · exact absurd he (List.not_mem_nil e)

/-- Claim C6: for every deletion batch and every id in it whose stored row is
authored by the owner, the row is removed from the store and no deletion
notification about it is produced, regardless of subscription status and of
how the batch was classified. -/
theorem C6_owner_rows_silent (db : List StoredMsg) (window : List (ℚ × Nat))
    (chat : Int) (ids : List Int) (now : ℚ) (name : String)
    (subA : Int → Bool) (sOk fOk : Int → Bool) (fEx : String → Bool)
    (embedOk writeOk archOk : Bool) (mid : Int) (row : StoredMsg)
    (hmem : mid ∈ ids) (hnd : ids.Nodup)
    (hf : findByChatMid db chat mid = some row)
    (hu : row.user_id = some row.owner_id) :
    get_message_full (handle_deleted_business_messages db window chat ids now name
        subA sOk fOk fEx embedOk writeOk archOk).1 row.owner_id chat mid = none
    ∧ ∀ e ∈ (handle_deleted_business_messages db window chat ids now name
        subA sOk fOk fEx embedOk writeOk archOk).2.2,
        e.isDeleteNoticeFor mid = false := by
  have hrowmem := List.mem_of_find?_eq_some hf
  have hrowp := List.find?_some hf
  rw [Bool.and_eq_true, beq_iff_eq, beq_iff_eq] at hrowp
  have hloop := process_ids_owner_silent chat subA sOk fOk fEx mid row ids db hmem hnd hf hu
  rcases htop : db.find? (fun m => m.chat_id == chat && ids.contains m.message_id)
    with _ | fr
  · exfalso
    have hno := List.find?_eq_none.mp htop row hrowmem
    apply hno
    rw [Bool.and_eq_true, beq_iff_eq]
    refine ⟨hrowp.1, ?_⟩
    rw [hrowp.2]
    exact List.elem_iff.mpr hmem
  · obtain ⟨h1, archEffs, h2, h3⟩ := handler_del_proj db window chat ids now name
      subA sOk fOk fEx embedOk writeOk archOk fr htop
    constructor
    · rw [h1]
      exact hloop.1
    · intro e he
      rw [h2, List.mem_append] at he
      rcases he with he | he
      · exact h3 e he mid
      · exact hloop.2 e he

/-- Witness for C6: a single-id batch hitting the owner's own stored row. -/
theorem C6_owner_rows_silent_witness :
    get_message_full (handle_deleted_business_messages
        [⟨1, 5, 7, some 1, "mine", none, none, none, none⟩] [] 5 [7] 0 "c"
        (fun _ => true) (fun _ => true) (fun _ => true) (fun _ => false) true false true).1
        1 5 7 = none
    ∧ ∀ e ∈ (handle_deleted_business_messages
        [⟨1, 5, 7, some 1, "mine", none, none, none, none⟩] [] 5 [7] 0 "c"
        (fun _ => true) (fun _ => true) (fun _ => true) (fun _ => false) true false true).2.2,
        e.isDeleteNoticeFor 7 = false :=
  C6_owner_rows_silent [⟨1, 5, 7, some 1, "mine", none, none, none, none⟩] [] 5 [7] 0 "c"
    (fun _ => true) (fun _ => true) (fun _ => true) (fun _ => false) true false true 7
    ⟨1, 5, 7, some 1, "mine", none, none, none, none⟩
    (by decide) (by decide) (by decide) (by decide)

/-- Claim C7: a reply to a photo from a non-owner sender triggers the
recovery path — the photo is downloaded, forwarded to the owner, and stored
under the original message's id with media kind `photo_reply` — while a
reply to a photo authored by the owner triggers no recovery at all. -/
theorem C7_photo_reply_recovery (db : List StoredMsg) (owner : Int) (msg : BizMsg)
    (subActive : Bool) (env : BizEnv) (r : ReplyMsg)
    (hr : msg.reply = some r) (hp : r.has_photo = true) (hv : r.has_video = false) :
    ((¬ r.from_user = some owner) → env.photoDl = DlOutcome.ok → env.photoSendOk = true →
      ¬ r.message_id = msg.message_id →
      (Effect.dlReplyPhoto msg.chat_id r.message_id DlOutcome.ok
          ∈ (handle_business_message db owner msg subActive env).2
        ∧ Effect.fwdReplyPhoto owner r.message_id true
          ∈ (handle_business_message db owner msg subActive env).2
        ∧ ∃ s, get_message_full (handle_business_message db owner msg subActive env).1
                 owner msg.chat_id r.message_id = some s
             ∧ s.media_type = some "photo_reply"
             ∧ s.file_path = some (photo_reply_path msg.chat_id r.message_id)))
    ∧ (r.from_user = some owner →
        view_once_photo_step db owner msg env = ⟨db, [], false⟩) := by
  constructor
  · intro hu hdl hsend hne
    obtain ⟨m1, m2, m3⟩ := photo_success_handler db owner msg subActive env r hr hp hv hu
      hdl hsend
    exact ⟨m1, m2, m3 hne⟩
  · intro hu
    exact photo_step_skip_owner db owner msg env r hr hu

/-- Witness for C7: concrete reply-photo recovery with all sends succeeding. -/
theorem C7_photo_reply_recovery_witness :
    Effect.dlReplyPhoto 5 7 DlOutcome.ok
      ∈ (handle_business_message [] 1
          ⟨5, 9, some 2, some "t", none, none, [], some ⟨7, some 2, true, false, none⟩⟩
          true ⟨DlOutcome.ok, true, DlOutcome.ok, true, true⟩).2
    ∧ Effect.fwdReplyPhoto 1 7 true
      ∈ (handle_business_message [] 1
          ⟨5, 9, some 2, some "t", none, none, [], some ⟨7, some 2, true, false, none⟩⟩
          true ⟨DlOutcome.ok, true, DlOutcome.ok, true, true⟩).2
    ∧ ∃ s, get_message_full (handle_business_message [] 1
            ⟨5, 9, some 2, some "t", none, none, [], some ⟨7, some 2, true, false, none⟩⟩
            true ⟨DlOutcome.ok, true, DlOutcome.ok, true, true⟩).1 1 5 7 = some s
        ∧ s.media_type = some "photo_reply"
        ∧ s.file_path = some (photo_reply_path 5 7) :=
  (C7_photo_reply_recovery [] 1
      ⟨5, 9, some 2, some "t", none, none, [], some ⟨7, some 2, true, false, none⟩⟩
      true ⟨DlOutcome.ok, true, DlOutcome.ok, true, true⟩
      ⟨7, some 2, true, false, none⟩ rfl rfl rfl).1
    (by decide) rfl rfl (by decide)

/-- Claim C8, as stated, is false on the code: when the reply-photo download
returns but the destination file is absent, the handler executes a bare
`return` (`bot.py` lines 3396-3398), so the inbound message's own text
`hello` is never stored and no counter is bumped — the failure does abort the
rest of the processing. -/
theorem C8_counterexample :
    (handle_business_message [] 1
        ⟨5, 9, some 2, some "hello", none, none, [], some ⟨7, some 2, true, false, none⟩⟩
        true ⟨DlOutcome.fileMissing, true, DlOutcome.ok, true, true⟩)
      = ([], [Effect.dlReplyPhoto 5 7 DlOutcome.fileMissing])
    ∧ get_message_full (handle_business_message [] 1
        ⟨5, 9, some 2, some "hello", none, none, [], some ⟨7, some 2, true, false, none⟩⟩
        true ⟨DlOutcome.fileMissing, true, DlOutcome.ok, true, true⟩).1 1 5 9 = none := by
  decide

/-- Claim C8 amended: a recovery failure that raises (download error,
platform 404) is caught and logged and does not abort the processing of the
inbound message — its own content is still stored and the message counter
still bumped; only the no-exception missing-file check aborts the handler
early. -/
theorem C8_amended_raised_contained (db : List StoredMsg) (owner : Int) (msg : BizMsg)
    (env : BizEnv) (r : ReplyMsg)
    (hr : msg.reply = some r) (hp : r.has_photo = true) (hv : r.has_video = false)
    (hu : ¬ r.from_user = some owner) (hdl : env.photoDl = DlOutcome.raised) :
    (handle_business_message db owner msg true env).1
      = save_message db owner msg.chat_id msg.message_id msg.from_user
          (some (pystr msg.text)) msg.media
          (Option.map (own_media_path msg.chat_id msg.message_id) msg.media)
          msg.caption (linksOf msg.links)
    ∧ Effect.dlReplyPhoto msg.chat_id r.message_id DlOutcome.raised
        ∈ (handle_business_message db owner msg true env).2
    ∧ Effect.statMessages owner ∈ (handle_business_message db owner msg true env).2 := by
  have h1 := photo_step_raised db owner msg env r hr hp hu hdl
  have h2 := video_step_skip db owner msg env r hr hv
  unfold handle_business_message
  rw [h1]
  simp only [h2]
  refine ⟨rfl, by simp, by simp⟩

/-- Witness for the amended C8: raised download, rest of message stored. -/
theorem C8_amended_witness :
    (handle_business_message [] 1
        ⟨5, 9, some 2, some "hello", none, none, [], some ⟨7, some 2, true, false, none⟩⟩
        true ⟨DlOutcome.raised, true, DlOutcome.ok, true, true⟩).1
      = save_message [] 1 5 9 (some 2) (some (pystr (some "hello"))) none
          (Option.map (own_media_path 5 9) none) none (linksOf [])
    ∧ Effect.dlReplyPhoto 5 7 DlOutcome.raised
        ∈ (handle_business_message [] 1
            ⟨5, 9, some 2, some "hello", none, none, [], some ⟨7, some 2, true, false, none⟩⟩
            true ⟨DlOutcome.raised, true, DlOutcome.ok, true, true⟩).2
    ∧ Effect.statMessages 1
        ∈ (handle_business_message [] 1
            ⟨5, 9, some 2, some "hello", none, none, [], some ⟨7, some 2, true, false, none⟩⟩
            true ⟨DlOutcome.raised, true, DlOutcome.ok, true, true⟩).2 :=
  C8_amended_raised_contained [] 1
    ⟨5, 9, some 2, some "hello", none, none, [], some ⟨7, some 2, true, false, none⟩⟩
    ⟨DlOutcome.raised, true, DlOutcome.ok, true, true⟩
    ⟨7, some 2, true, false, none⟩ rfl rfl rfl (by decide) rfl

/-- Claim C9, as stated, is false on the code: with one stored row for the
chat but a failing file write, `create_chat_html_backup` still returns
not-available (`bot.py` lines 1389-1396), so `none` does not imply zero
stored rows. -/
theorem C9_counterexample :
    create_chat_html_backup [⟨1, 5, 7, some 2, "hi", none, none, none, none⟩] 1 5 "c" none
        (fun _ => false) true false = none
    ∧ ¬ list_for_chat [⟨1, 5, 7, some 2, "hi", none, none, none, none⟩] 1 5 = [] := by
  decide

/-- Claim C9 amended: the chat archive render returns not-available exactly
when there are zero stored rows for the `(owner, chat)` pair or the artifact
file write fails; a produced artifact is never empty. -/
theorem C9_amended_not_available (db : List StoredMsg) (owner chat : Int) (name : String)
    (limit : Option Nat) (fEx : String → Bool) (embedOk writeOk : Bool) :
    (create_chat_html_backup db owner chat name limit fEx embedOk writeOk = none
      ↔ (list_for_chat db owner chat = [] ∨ writeOk = false))
    ∧ ∀ art, create_chat_html_backup db owner chat name limit fEx embedOk writeOk = some art
        → ¬ art = "" :=
  ⟨create_backup_none_iff db owner chat name limit fEx embedOk writeOk,
   create_backup_artifact_ne db owner chat name limit fEx embedOk writeOk⟩

/-- Witness for the amended C9 on a one-row chat with a successful write. -/
theorem C9_amended_witness :
    (create_chat_html_backup [⟨1, 5, 7, some 2, "hi", none, none, none, none⟩] 1 5 "c" none
        (fun _ => false) true true = none
      ↔ (list_for_chat [⟨1, 5, 7, some 2, "hi", none, none, none, none⟩] 1 5 = []
          ∨ (true : Bool) = false))
    ∧ ¬ (Option.getD (create_chat_html_backup
          [⟨1, 5, 7, some 2, "hi", none, none, none, none⟩] 1 5 "c" none
          (fun _ => false) true true) "") = "" :=
  ⟨(C9_amended_not_available [⟨1, 5, 7, some 2, "hi", none, none, none, none⟩] 1 5 "c" none
      (fun _ => false) true true).1,
   (C9_amended_not_available [⟨1, 5, 7, some 2, "hi", none, none, none, none⟩] 1 5 "c" none
      (fun _ => false) true true).2 _ (by decide)⟩

/-- With an inactive subscription the inbound handler stops after the two
recovery steps: its result is one of the two recovery-only states. -/
theorem handler_inactive_shape (db : List StoredMsg) (owner : Int) (msg : BizMsg)
    (env : BizEnv) :
    handle_business_message db owner msg false env
      = ((view_once_photo_step db owner msg env).db, (view_once_photo_step db owner msg env).effs)
    ∨ handle_business_message db owner msg false env
      = ((view_once_video_step (view_once_photo_step db owner msg env).db owner msg env).db,
         (view_once_photo_step db owner msg env).effs
           ++ (view_once_video_step (view_once_photo_step db owner msg env).db
                owner msg env).effs) := by
  simp only [handle_business_message]
  split_ifs with h1 h2 h3
  · left
    rfl
  · right
    rfl
  · right
    rfl
  · exact absurd rfl h3

/-- Claim C10: with an inactive subscription, the inbound handler neither
downloads the message's own media nor bumps the message counter nor upserts
the message itself — while the view-once recovery, having run before the
subscription check, still forwards and stores the recovered photo. -/
theorem C10_subscription_gate (db : List StoredMsg) (owner : Int) (msg : BizMsg)
    (env : BizEnv)
    (hkey : ∀ r : ReplyMsg, msg.reply = some r → ¬ r.message_id = msg.message_id) :
    (∀ e ∈ (handle_business_message db owner msg false env).2,
        e.isOwnMediaDl = false ∧ e.isStatMessages = false)
    ∧ get_message_full (handle_business_message db owner msg false env).1
        owner msg.chat_id msg.message_id
      = get_message_full db owner msg.chat_id msg.message_id
    ∧ (∀ r : ReplyMsg, msg.reply = some r → r.has_photo = true → r.has_video = false →
        ¬ r.from_user = some owner → env.photoDl = DlOutcome.ok → env.photoSendOk = true →
        Effect.fwdReplyPhoto owner r.message_id true
          ∈ (handle_business_message db owner msg false env).2
        ∧ ∃ s, get_message_full (handle_business_message db owner msg false env).1
                 owner msg.chat_id r.message_id = some s
             ∧ s.media_type = some "photo_reply") := by
  have hshape := handler_inactive_shape db owner msg env
  have hm : ∀ r : ReplyMsg, msg.reply = some r
      → ¬(owner = owner ∧ msg.chat_id = msg.chat_id ∧ r.message_id = msg.message_id) := by
    intro r hrr hc
    exact hkey r hrr hc.2.2
  refine ⟨?_, ?_, ?_⟩
  · intro e he
    rcases hshape with hs | hs
    · rw [hs] at he
      exact photo_step_effects db owner msg env e he
    · rw [hs] at he
      rw [List.mem_append] at he
      rcases he with he | he
      · exact photo_step_effects db owner msg env e he
      · exact video_step_effects _ owner msg env e he
  · rcases hshape with hs | hs
    · rw [hs]
      exact photo_step_db_get db owner msg env owner msg.chat_id msg.message_id hm
    · rw [hs]
      show get_message_full (view_once_video_step (view_once_photo_step db owner msg env).db
          owner msg env).db owner msg.chat_id msg.message_id
        = get_message_full db owner msg.chat_id msg.message_id
      rw [video_step_db_get _ owner msg env owner msg.chat_id msg.message_id hm]
      exact photo_step_db_get db owner msg env owner msg.chat_id msg.message_id hm
  · intro r hrr hp hv hu hdl hsend
    obtain ⟨m1, m2, m3⟩ := photo_success_handler db owner msg false env r hrr hp hv hu hdl
      hsend
    refine ⟨m2, ?_⟩
    obtain ⟨s, hs1, hs2, _⟩ := m3 (hkey r hrr)
    exact ⟨s, hs1, hs2⟩

/-- Witness for C10: inactive subscription, successful view-once recovery. -/
theorem C10_subscription_gate_witness :
    (∀ e ∈ (handle_business_message [] 1
        ⟨5, 9, some 2, some "t", none, some "photo", [], some ⟨7, some 2, true, false, none⟩⟩
        false ⟨DlOutcome.ok, true, DlOutcome.ok, true, true⟩).2,
        e.isOwnMediaDl = false ∧ e.isStatMessages = false)
    ∧ get_message_full (handle_business_message [] 1
        ⟨5, 9, some 2, some "t", none, some "photo", [], some ⟨7, some 2, true, false, none⟩⟩
        false ⟨DlOutcome.ok, true, DlOutcome.ok, true, true⟩).1 1 5 9
      = get_message_full [] 1 5 9
    ∧ (∀ r : ReplyMsg,
        (some (⟨7, some 2, true, false, none⟩ : ReplyMsg)) = some r → r.has_photo = true →
        r.has_video = false → ¬ r.from_user = some 1 →
        DlOutcome.ok = DlOutcome.ok → (true : Bool) = true →
        Effect.fwdReplyPhoto 1 r.message_id true
          ∈ (handle_business_message [] 1
              ⟨5, 9, some 2, some "t", none, some "photo", [],
                some ⟨7, some 2, true, false, none⟩⟩
              false ⟨DlOutcome.ok, true, DlOutcome.ok, true, true⟩).2
        ∧ ∃ s, get_message_full (handle_business_message [] 1
                 ⟨5, 9, some 2, some "t", none, some "photo", [],
                   some ⟨7, some 2, true, false, none⟩⟩
                 false ⟨DlOutcome.ok, true, DlOutcome.ok, true, true⟩).1 1 5 r.message_id
               = some s
             ∧ s.media_type = some "photo_reply") :=
  C10_subscription_gate [] 1
    ⟨5, 9, some 2, some "t", none, some "photo", [], some ⟨7, some 2, true, false, none⟩⟩
    ⟨DlOutcome.ok, true, DlOutcome.ok, true, true⟩
    (by intro r hrr; cases hrr; decide)

/-- Concrete instances of the C2 classification facts. -/
theorem C2_classification_witness :
    classify 1 100 1 = false ∧ classify 3 50 0 = true :=
  ⟨C2_classification.2.1, C2_classification.2.2 50 0⟩
